import Mathlib

/-!
Verification of the Project-DEVI request-handling pipeline.

The repository `src/app/api/answer/route.ts` contains three concatenated
variants of the same Next.js route handler; `src/unnamed/part_000` holds an
earlier, simpler variant.  This file shallowly embeds the pieces of those
handlers that the specification's claims are about: keyword-based mode
detection, section-title selection, the Tavily search client wrappers, the
hits-to-sources mapping, the citation-dedup regex cleanup, the fallback
template engine, and the request handler's control flow, with network
effects made explicit through oracle parameters.

Naming convention: an unsuffixed name (`detectMode`, `webSearch`,
`dedupeCitations`, `postHandler1`) models the FIRST variant in `route.ts`;
`...2` and `...3` model the second and third variants; `...000` models
`src/unnamed/part_000`.
-/

namespace Devi

/-! ### Generic string machinery (JS `includes`, `\s`, `\d`) -/

/-- Boolean prefix test on character lists. -/
def isPrefixL : List Char → List Char → Bool
  | [], _ => true
  | _ :: _, [] => false
  | a :: as, b :: bs => a == b && isPrefixL as bs

/-- Substring occurrence test on character lists (JS `String.includes`). -/
def containsSub (needle : List Char) : List Char → Bool
  | [] => isPrefixL needle []
  | c :: rest => isPrefixL needle (c :: rest) || containsSub needle rest

/-- JS `s.includes(k)`. -/
def includesStr (s k : String) : Bool := containsSub k.data s.data

/-- JS regex `\s` character class (the cases relevant to this code base). -/
def isSpaceC (c : Char) : Bool :=
  c == ' ' || c == '\t' || c == '\n' || c == '\r' || c == '\x0b' || c == '\x0c'

/-- JS regex `\d` character class. -/
def isDigitC (c : Char) : Bool := '0' ≤ c && c ≤ '9'

/-- ASCII lowercase conversion of one character (the fragment of JS
`toLowerCase` exercised by this code base). -/
def toLowerC (c : Char) : Char :=
  if 'A' ≤ c && c ≤ 'Z' then Char.ofNat (c.toNat + 32) else c

/-- JS `s.toLowerCase()` on ASCII text. -/
def toLowerStr (s : String) : String := ⟨s.data.map toLowerC⟩

/-! ### Mode detection (`detectMode`, three variants) and section titles

The `Mode` union type of the TypeScript source is erased at runtime and the
handlers cast unvalidated request strings into it, so modes are embedded as
plain strings. -/

/-- Imaging keyword list of the first `detectMode` (route.ts lines 67-91). -/
def radioKeys1 : List String :=
  ["xray", "x-ray", "xr ", "radiograph", "ap view", "lateral view", "ct ",
   "computed tomography", "mri", "mr imaging", "ultrasound", "usg", "report",
   "impression", "ddx", "differential", "findings", "radiology", "sequence",
   "contrast", "t1", "t2", "stir"]

/-- Emergency keyword list of the first `detectMode` (route.ts lines 93-107). -/
def edKeys1 : List String :=
  [" ed ", " emergency", "triage", "resus", "resuscitation", "abcde",
   "primary survey", "secondary survey", "hypotension", "unstable", "shock",
   "er approach", "initial stabilization"]

/-- Imaging keyword list of the second `detectMode` (route.ts lines 431-448). -/
def radioKeys2 : List String :=
  ["xray", "x-ray", "xr", "radiograph", "ap view", "lateral view", "ct",
   "computed tomography", "mri", "ultrasound", "usg", "report", "impression",
   "findings", "sequence", "contrast"]

/-- Emergency keyword list of the second `detectMode` (route.ts lines 450-462). -/
def edKeys2 : List String :=
  ["ed ", " emergency", "triage", "resus", "resuscitation", "abcde",
   "primary survey", "secondary survey", "unstable", "shock", "hypotension"]

/-- Imaging keyword list of the third `detectMode` (route.ts lines 762-783). -/
def radioKeys3 : List String :=
  ["xray", "x-ray", "xr", "radiograph", "ap view", "lateral view", "ct",
   "computed tomography", "mri", "ultrasound", "usg", "impression", "findings",
   "contrast", "sequence", "t1", "t2", "stir", "cta", "ctpa"]

/-- Emergency keyword list of the third `detectMode` (route.ts lines 785-800). -/
def edKeys3 : List String :=
  ["ed ", " emergency", "triage", "resus", "resuscitation", "abcde",
   "primary survey", "secondary survey", "hypotension", "unstable", "shock",
   "er approach", "initial stabilization", "polytrauma"]

/-- `keys.some(k => s.includes(k))`. -/
def someIncludes (s : String) (keys : List String) : Bool :=
  keys.any fun k => includesStr s k

/-- Shared body of all three `detectMode` variants, parametrised by the two
keyword lists. -/
def detectModeWith (radioKeys edKeys : List String) (q : String) : String :=
  let s := toLowerStr q
  let radioHits := someIncludes s radioKeys
  let edHits := someIncludes s edKeys
  if radioHits && !edHits then "radiology"
  else if edHits then "emergency"
  else "ortho"

/-- `detectMode`, first variant (route.ts lines 64-112). -/
def detectMode (q : String) : String := detectModeWith radioKeys1 edKeys1 q

/-- `detectMode`, second variant (route.ts lines 428-467). -/
def detectMode2 (q : String) : String := detectModeWith radioKeys2 edKeys2 q

/-- `detectMode`, third variant (route.ts lines 760-805). -/
def detectMode3 (q : String) : String := detectModeWith radioKeys3 edKeys3 q

/-- `sectionTitlesFor` (route.ts lines 114-141; the `sectionTitles` functions
of the other two variants are textually identical). -/
def sectionTitlesFor (mode : String) : List String :=
  if mode == "radiology" then
    ["Clinical Question", "Key Imaging Findings", "Differential Diagnosis",
     "What to Look For", "Suggested Report Impression"]
  else if mode == "emergency" then
    ["Triage/Red Flags", "Initial Stabilization", "Focused Assessment",
     "Immediate Management", "Disposition/Follow-up"]
  else
    ["Classification", "Risk Factors", "Associated Injuries",
     "Initial Management", "Definitive/Follow-up"]

/-! ### HTML helpers `ul` and `sec` (route.ts lines 51-61) -/

/-- `ul(items)` (route.ts lines 51-55). -/
def ul (items : List String) : String :=
  "<ul style=\"margin:6px 0 0; padding-left: 20px\">"
    ++ String.join (items.map fun i => "<li>" ++ i ++ "</li>")
    ++ "</ul>"

/-- `sec(title, items)` (route.ts lines 56-61). -/
def sec (title : String) (items : List String) : String :=
  if items.isEmpty then ""
  else
    "<div style=\"margin-bottom:14px\"><div style=\"font-weight:700\">"
      ++ title ++ "</div>" ++ ul items ++ "</div>"

/-! ### `dedupeCitations` (route.ts lines 145-150, first variant)

The source is a single global regex replace:

  `html.replace(/(\[\d+(?:\s*,\s*\d+)*\])(?:\s*\.\s*)?(?:\s*\1)+/g, "$1")`

The embedding implements this specific pattern's match-and-replace
semantics directly: a citation cluster `[\d+(\s*,\s*\d+)*]` is parsed
(its sub-steps are deterministic for this pattern, since after the digits
only a comma or the closing bracket can continue a match), then the
optional `\s*\.\s*` separator is tried greedily, then one-or-more
whitespace-separated literal repetitions of the captured cluster; the
whole match is replaced by the captured cluster and scanning resumes
after the match, as JS global replace does. -/

/-- Greedily parse `\d+` ; returns consumed digits (nonempty) and the rest. -/
def parseDigits (l : List Char) : Option (List Char × List Char) :=
  let ds := l.takeWhile isDigitC
  if ds.isEmpty then none else some (ds, l.drop ds.length)

/-- Greedily parse `(?:\s*,\s*\d+)*` ; returns consumed chars and the rest. -/
def parseCommaGroups (fuel : Nat) (l : List Char) : List Char × List Char :=
  match fuel with
  | 0 => ([], l)
  | fuel + 1 =>
    let ws1 := l.takeWhile isSpaceC
    let r1 := l.drop ws1.length
    match r1 with
    | ',' :: r2 =>
      let ws2 := r2.takeWhile isSpaceC
      let r3 := r2.drop ws2.length
      match parseDigits r3 with
      | some (ds, r4) =>
        let (more, rest) := parseCommaGroups fuel r4
        (ws1 ++ [','] ++ ws2 ++ ds ++ more, rest)
      | none => ([], l)
    | _ => ([], l)

/-- Parse a citation cluster `\[\d+(?:\s*,\s*\d+)*\]` at the head of the
list; returns the consumed cluster (brackets included) and the rest. -/
def parseClusterAt (l : List Char) : Option (List Char × List Char) :=
  match l with
  | '[' :: r1 =>
    match parseDigits r1 with
    | some (ds, r2) =>
      let (groups, r3) := parseCommaGroups r2.length r2
      match r3 with
      | ']' :: r4 => some ('[' :: ds ++ groups ++ [']'], r4)
      | _ => none
    | none => none
  | _ => none

/-- Greedily match `(?:\s*c)+` where `c` is the captured cluster: returns
the repetition count and the rest after the last matched repetition. -/
def repMatch (c : List Char) (fuel : Nat) (l : List Char) : Nat × List Char :=
  match fuel with
  | 0 => (0, l)
  | fuel + 1 =>
    let ws := l.takeWhile isSpaceC
    let r := l.drop ws.length
    if isPrefixL c r then
      let (n, rest) := repMatch c fuel (r.drop c.length)
      (n + 1, rest)
    else (0, l)

/-- Try the full pattern at the head of the list; on success return the
replacement (the captured cluster) and the rest of the input after the
match. -/
def matchDedupeAt (l : List Char) : Option (List Char × List Char) :=
  match parseClusterAt l with
  | none => none
  | some (c, rest) =>
    let tryDot :=
      let ws1 := rest.takeWhile isSpaceC
      match rest.drop ws1.length with
      | '.' :: r2 =>
        let ws2 := r2.takeWhile isSpaceC
        let r3 := r2.drop ws2.length
        let (n, r4) := repMatch c r3.length r3
        if n ≥ 1 then some r4 else none
      | _ => none
    match tryDot with
    | some r4 => some (c, r4)
    | none =>
      let (n, r4) := repMatch c rest.length rest
      if n ≥ 1 then some (c, r4) else none

/-- Left-to-right global scan-and-replace for the dedup pattern. -/
def dedupeScan (fuel : Nat) (l : List Char) : List Char :=
  match fuel with
  | 0 => l
  | fuel + 1 =>
    match l with
    | [] => []
    | c :: rest =>
      match matchDedupeAt (c :: rest) with
      | some (repl, after) => repl ++ dedupeScan fuel after
      | none => c :: dedupeScan fuel rest

/-- `dedupeCitations` (route.ts lines 145-150). -/
def dedupeCitations (html : String) : String :=
  ⟨dedupeScan html.length html.data⟩

/-! ### Shared small string helpers for the handler embedding -/

/-- JS string truthiness fallback `a || b` for an optional string. -/
def orElseStr (a : Option String) (b : String) : String :=
  match a with
  | none => b
  | some s => if s == "" then b else s

/-- Take the first `n` characters (JS `slice(0, n)`). -/
def takeStr (s : String) (n : Nat) : String := ⟨s.data.take n⟩

/-- Prefix test (used for the anchored regexes of the source). -/
def startsWithStr (s p : String) : Bool := isPrefixL p.data s.data

/-- Suffix test (used for the `$`-anchored regexes of the source). -/
def endsWithStr (s p : String) : Bool := isPrefixL p.data.reverse s.data.reverse

/-- JS `s.trim()`. -/
def trimStr (s : String) : String :=
  ⟨((s.data.dropWhile isSpaceC).reverse.dropWhile isSpaceC).reverse⟩

/-- `url.replace(/^https?:\/\//, "")` (route.ts line 211). -/
def stripProto (u : String) : String :=
  if startsWithStr u "https://" then ⟨u.data.drop 8⟩
  else if startsWithStr u "http://" then ⟨u.data.drop 7⟩
  else u

/-! ### Data model: Tavily items, sources, responses -/

/-- `TavilyItem` (route.ts line 11): `{ url: string; title?: string;
content?: string }`. -/
structure TavilyItem where
  url : String
  title : Option String
  content : Option String
deriving DecidableEq

/-- The internal source record built by the handler (route.ts lines 209-214). -/
structure SourceRec where
  id : Nat
  title : String
  url : String
  content : String
deriving DecidableEq

/-- The public source shape `{ id, title, url }` returned to the caller
(route.ts line 355). -/
structure PublicSource where
  id : Nat
  title : String
  url : String
deriving DecidableEq

/-- One element of `hits.map((h, i) => ({...}))` (route.ts lines 209-214). -/
def mkSource1 (i : Nat) (h : TavilyItem) : SourceRec :=
  { id := i + 1
    title := orElseStr h.title (stripProto h.url)
    url := h.url
    content := takeStr (orElseStr h.content "") 1400 }

/-- Indexed map underlying `hits.map((h, i) => ...)`. -/
def hitsToSourcesAux (i : Nat) : List TavilyItem → List SourceRec
  | [] => []
  | h :: t => mkSource1 i h :: hitsToSourcesAux (i + 1) t

/-- The hits-to-sources mapping of the first handler (route.ts lines 209-214). -/
def hitsToSources (hits : List TavilyItem) : List SourceRec :=
  hitsToSourcesAux 0 hits

/-- `sources.map(({id, title, url}) => ({id, title, url}))` (route.ts 355). -/
def toPublic (s : SourceRec) : PublicSource := ⟨s.id, s.title, s.url⟩

/-- Spec-side observation: a URL with its query string and fragment
stripped, i.e. everything from the first `?` or `#` on removed (used only
to state the deduplication claim). -/
def stripQueryFragment (u : String) : String :=
  ⟨u.data.takeWhile fun c => c != '?' && c != '#'⟩

/-! ### Search clients (`webSearch`, first and third variants)

The network is made explicit by an oracle describing the outcome of the
`fetch` to the search provider. -/

/-- Outcome of the outbound search request: the fetch threw, the provider
answered with a non-success status, or it answered successfully with a
JSON body whose `results` field is absent or a list. -/
inductive NetOutcome where
  | exn
  | httpErr
  | ok (results : Option (List TavilyItem))
deriving DecidableEq

/-- `webSearch`, first variant (route.ts lines 17-48): guarded by a
`try`/`catch`, it degrades every failure to an empty list. -/
def webSearch (hasKey : Bool) (net : NetOutcome) : List TavilyItem :=
  if !hasKey then []
  else
    match net with
    | .exn => []
    | .httpErr => []
    | .ok r => r.getD []

/-- `webSearch`, third variant (route.ts lines 839-869): it has no
`try`/`catch`, so a thrown fetch exception propagates to the caller,
modelled by `Except.error`. -/
def webSearch3 (hasKey : Bool) (net : NetOutcome) :
    Except Unit (List TavilyItem) :=
  if !hasKey then .ok []
  else
    match net with
    | .exn => .error ()
    | .httpErr => .ok []
    | .ok r => .ok (r.getD [])

/-! ### Generation step of the first handler (route.ts lines 259-283) -/

/-- Outcome of the generation call: the client library threw (with some
message), or it returned text. -/
inductive GenOutcome where
  | throws (msg : String)
  | returns (text : String)
deriving DecidableEq

/-- `text.replace(/^```html\s*/i, "")` (route.ts line 271). -/
def stripLeadFence (s : String) : String :=
  if toLowerStr (takeStr s 7) == "```html" then
    ⟨(s.data.drop 7).dropWhile isSpaceC⟩
  else s

/-- `text.replace(/```$/i, "")` (route.ts line 271). -/
def stripTrailFence (s : String) : String :=
  if endsWithStr s "```" then ⟨s.data.take (s.length - 3)⟩ else s

/-- The post-processing chain applied to the raw model text (route.ts
lines 268-271): trim, strip a leading ```` ```html ```` fence, strip a
trailing fence, trim. -/
def processGen1 (raw : String) : String :=
  trimStr (stripTrailFence (stripLeadFence (trimStr raw)))

/-- Scan for the first `>` and return what follows it. -/
def afterFirstGt : List Char → Option (List Char)
  | [] => none
  | c :: t => if c == '>' then some t else afterFirstGt t

/-- The structure of `/<div[^>]*>.*<\/div>/s`: some occurrence of `<div`
is followed by a `>` and, after that, by `</div>`.  The caller accounts
for the `/i` flag by lowercasing the input first (the pattern's only
cased characters are the ASCII letters of `div`). -/
def divTest : List Char → Bool
  | [] => false
  | c :: t =>
    (isPrefixL "<div".data (c :: t) &&
      (match afterFirstGt ((c :: t).drop 4) with
       | some r => containsSub "</div>".data r
       | none => false))
    || divTest t

/-- `looksHtml` (route.ts line 274):
`/<div[^>]*>.*<\/div>/is.test(text) || /<ul>/.test(text)`.  The div test
carries the `/i` flag, so it is run on the lowercased text; the `<ul>`
test has no flag and stays case-sensitive. -/
def looksHtml1 (t : String) : Bool :=
  divTest (t.data.map toLowerC) || containsSub "<ul>".data t.data

/-- The HTML produced by the Gemini step of the first handler (route.ts
lines 259-283): empty when the key is missing, the call throws, or the
processed text does not look like HTML; otherwise the deduped text. -/
def genHtml1 (hasGemKey : Bool) (gen : GenOutcome) : String :=
  if !hasGemKey then ""
  else
    match gen with
    | .throws _ => ""
    | .returns raw =>
      let text := processGen1 raw
      if looksHtml1 text then dedupeCitations text else ""

/-! ### Fallback template engine of the first handler (route.ts 286-353) -/

/-- `const safe = (i: number) => `[${i}]`` (route.ts line 287). -/
def safeCite (i : Nat) : String := "[" ++ toString i ++ "]"

/-- The fallback template of the first handler (route.ts lines 286-353),
written exactly as the source's concatenation of `sec` calls. -/
def fallbackHtml1 (mode : String) : String :=
  if mode == "radiology" then
    sec "Clinical Question" ["What the study must answer " ++ safeCite 1 ++ "."]
    ++ sec "Key Imaging Findings"
        ["Primary signs and key measurements " ++ safeCite 1 ++ ".",
         "Complications or associated findings " ++ safeCite 2 ++ ".",
         "Pitfalls / mimics to exclude " ++ safeCite 3 ++ "."]
    ++ sec "Differential Diagnosis"
        ["Top 2–4 with discriminators " ++ safeCite 2 ++ "."]
    ++ sec "What to Look For"
        ["Checklist by modality/view; include lines/angles if relevant "
           ++ safeCite 3 ++ "."]
    ++ sec "Suggested Report Impression"
        ["One-line impression with urgency/next step " ++ safeCite 1 ++ "."]
  else if mode == "emergency" then
    sec "Triage/Red Flags"
        ["Immediate threats to airway/breathing/circulation " ++ safeCite 1 ++ ".",
         "Red flags mandating senior/ortho involvement " ++ safeCite 2 ++ ".",
         "Analgesia and safeguarding considerations " ++ safeCite 3 ++ "."]
    ++ sec "Initial Stabilization"
        ["ABCDE with analgesia and immobilization as needed " ++ safeCite 1 ++ ".",
         "Fluids, blood products, antibiotics/tetanus when appropriate "
           ++ safeCite 3 ++ ".",
         "Point-of-care imaging or labs if time-critical " ++ safeCite 2 ++ "."]
    ++ sec "Focused Assessment"
        ["Neurovascular exam and mechanism-specific checks " ++ safeCite 2 ++ ".",
         "Identify indications for urgent reduction/procedure " ++ safeCite 3 ++ "."]
    ++ sec "Immediate Management"
        ["Clear criteria for non-op vs reduction vs OR " ++ safeCite 1 ++ ".",
         "Time-bound reassessment and escalation " ++ safeCite 2 ++ "."]
    ++ sec "Disposition/Follow-up"
        ["Admit vs discharge with explicit safety-net and review " ++ safeCite 2 ++ "."]
  else
    sec "Classification"
        ["Key type(s) & radiographic features " ++ safeCite 1 ++ ".",
         "Named angles/lines that define the type " ++ safeCite 4 ++ ".",
         "Common exam phrasings for vivas " ++ safeCite 6 ++ "."]
    ++ sec "Risk Factors"
        ["Mechanism / age / typical context " ++ safeCite 2 ++ ".",
         "High-risk features predicting complications " ++ safeCite 5 ++ "."]
    ++ sec "Associated Injuries"
        ["Nerve/artery risks & how to document " ++ safeCite 3 ++ ".",
         "Joint injury / other fracture patterns " ++ safeCite 2 ++ "."]
    ++ sec "Initial Management"
        ["ABCDE, analgesia, immobilization, ortho consult " ++ safeCite 1 ++ ".",
         "When imaging & which views " ++ safeCite 4 ++ ".",
         "Clear criteria for reduction vs splint vs OR " ++ safeCite 2 ++ "."]
    ++ sec "Definitive/Follow-up"
        ["Indications for pinning / fixation " ++ safeCite 2 ++ ".",
         "Rehab milestones and clinic follow-up " ++ safeCite 5 ++ "."]

/-- The same fallback content viewed structurally, as the ordered list of
(section title, bullet list) pairs passed to `sec` in route.ts 286-353. -/
def fallbackSections1 (mode : String) : List (String × List String) :=
  if mode == "radiology" then
    [("Clinical Question", ["What the study must answer " ++ safeCite 1 ++ "."]),
     ("Key Imaging Findings",
       ["Primary signs and key measurements " ++ safeCite 1 ++ ".",
        "Complications or associated findings " ++ safeCite 2 ++ ".",
        "Pitfalls / mimics to exclude " ++ safeCite 3 ++ "."]),
     ("Differential Diagnosis",
       ["Top 2–4 with discriminators " ++ safeCite 2 ++ "."]),
     ("What to Look For",
       ["Checklist by modality/view; include lines/angles if relevant "
          ++ safeCite 3 ++ "."]),
     ("Suggested Report Impression",
       ["One-line impression with urgency/next step " ++ safeCite 1 ++ "."])]
  else if mode == "emergency" then
    [("Triage/Red Flags",
       ["Immediate threats to airway/breathing/circulation " ++ safeCite 1 ++ ".",
        "Red flags mandating senior/ortho involvement " ++ safeCite 2 ++ ".",
        "Analgesia and safeguarding considerations " ++ safeCite 3 ++ "."]),
     ("Initial Stabilization",
       ["ABCDE with analgesia and immobilization as needed " ++ safeCite 1 ++ ".",
        "Fluids, blood products, antibiotics/tetanus when appropriate "
          ++ safeCite 3 ++ ".",
        "Point-of-care imaging or labs if time-critical " ++ safeCite 2 ++ "."]),
     ("Focused Assessment",
       ["Neurovascular exam and mechanism-specific checks " ++ safeCite 2 ++ ".",
        "Identify indications for urgent reduction/procedure " ++ safeCite 3 ++ "."]),
     ("Immediate Management",
       ["Clear criteria for non-op vs reduction vs OR " ++ safeCite 1 ++ ".",
        "Time-bound reassessment and escalation " ++ safeCite 2 ++ "."]),
     ("Disposition/Follow-up",
       ["Admit vs discharge with explicit safety-net and review " ++ safeCite 2 ++ "."])]
  else
    [("Classification",
       ["Key type(s) & radiographic features " ++ safeCite 1 ++ ".",
        "Named angles/lines that define the type " ++ safeCite 4 ++ ".",
        "Common exam phrasings for vivas " ++ safeCite 6 ++ "."]),
     ("Risk Factors",
       ["Mechanism / age / typical context " ++ safeCite 2 ++ ".",
        "High-risk features predicting complications " ++ safeCite 5 ++ "."]),
     ("Associated Injuries",
       ["Nerve/artery risks & how to document " ++ safeCite 3 ++ ".",
        "Joint injury / other fracture patterns " ++ safeCite 2 ++ "."]),
     ("Initial Management",
       ["ABCDE, analgesia, immobilization, ortho consult " ++ safeCite 1 ++ ".",
        "When imaging & which views " ++ safeCite 4 ++ ".",
        "Clear criteria for reduction vs splint vs OR " ++ safeCite 2 ++ "."]),
     ("Definitive/Follow-up",
       ["Indications for pinning / fixation " ++ safeCite 2 ++ ".",
        "Rehab milestones and clinic follow-up " ++ safeCite 5 ++ "."])]

/-- Render a list of (title, bullets) pairs through `sec`, in order. -/
def renderSecs : List (String × List String) → String
  | [] => ""
  | p :: t => sec p.1 p.2 ++ renderSecs t

/-! ### The first request handler (route.ts lines 189-375)

Network effects are oracle parameters; the `Calls` record tracks which
outbound requests the handler actually issues. -/

/-- Presence of the three configuration credentials. -/
structure Env where
  tavilyKey : Bool
  geminiKey : Bool
  feedbackUrl : Bool
deriving DecidableEq

/-- Which outbound requests were issued while handling one request. -/
structure Calls where
  searchCall : Bool
  genCall : Bool
  webhookCall : Bool
deriving DecidableEq

/-- The handler's HTTP result: an error response with a status code, or a
success (HTTP 200) response `{ answer, sources, mode }`. -/
inductive HandlerResult where
  | err (status : Nat) (message : String)
  | ok (answer : String) (sources : List PublicSource) (mode : String)
deriving DecidableEq

/-- The mode ternary of the first handler (route.ts lines 203-204):
`userMode && userMode !== "auto" ? userMode : detectMode(question)`.
An absent or empty (falsy) or `"auto"` mode falls back to detection. -/
def resolveMode1 (userMode : Option String) (question : String) : String :=
  match userMode with
  | some m => if m != "" && m != "auto" then m else detectMode question
  | none => detectMode question

/-- The no-sources answer HTML of the first handler (route.ts line 217). -/
def noSourcesHtml1 : String :=
  "<div style=\"padding:12px;border:1px solid #eee;border-radius:8px\">No reliable sources found for this query. Please rephrase or try a more specific question.</div>"

/-- The first `POST` handler (route.ts lines 189-375). -/
def postHandler1 (questionIn : Option String) (userMode : Option String)
    (env : Env) (net : NetOutcome) (gen : GenOutcome) :
    HandlerResult × Calls :=
  match questionIn with
  | none => (.err 400 "Ask a valid question.", ⟨false, false, false⟩)
  | some question =>
    if (trimStr question).length < 3 then
      (.err 400 "Ask a valid question.", ⟨false, false, false⟩)
    else
      let mode := resolveMode1 userMode question
      let hits := webSearch env.tavilyKey net
      let sources := hitsToSources hits
      if sources.isEmpty then
        (.ok noSourcesHtml1 [] mode, ⟨env.tavilyKey, false, false⟩)
      else
        let htmlAnswer := genHtml1 env.geminiKey gen
        let answer := if htmlAnswer == "" then fallbackHtml1 mode else htmlAnswer
        (.ok answer (sources.map toPublic) mode,
         ⟨env.tavilyKey, env.geminiKey, env.feedbackUrl⟩)

/-- The answer field of a handler result, when it is a success. -/
def HandlerResult.answerOf : HandlerResult → Option String
  | .err _ _ => none
  | .ok a _ _ => some a

/-- The public source list of a handler result, when it is a success. -/
def HandlerResult.sourcesOf : HandlerResult → List PublicSource
  | .err _ _ => []
  | .ok _ s _ => s

/-- The mode field of a handler result, when it is a success. -/
def HandlerResult.modeOf : HandlerResult → Option String
  | .err _ _ => none
  | .ok _ _ m => some m

/-! ### The `src/unnamed/part_000` handler -/

/-- A raw Tavily result as consumed by `part_000` (all fields may be
absent). -/
structure Hit000 where
  url : Option String
  title : Option String
  content : Option String
deriving DecidableEq

/-- `Source` of `part_000` (line 4). -/
structure Source000 where
  id : Nat
  title : String
  url : String
  excerpt : String
deriving DecidableEq

/-- One element of `results.map((r, i) => ...)` (part_000 lines 29-34):
`title: r.title || r.url || "Source"`, `url: r.url || ""`,
`excerpt: r.content || ""`. -/
def mkSource000 (i : Nat) (r : Hit000) : Source000 :=
  { id := i + 1
    title := orElseStr r.title (orElseStr r.url "Source")
    url := orElseStr r.url ""
    excerpt := orElseStr r.content "" }

/-- Indexed map over the raw results. -/
def hits000Aux (i : Nat) : List Hit000 → List Source000
  | [] => []
  | h :: t => mkSource000 i h :: hits000Aux (i + 1) t

/-- Outcome of `part_000`'s search fetch: the fetch or JSON parse threw,
or a body was produced whose `results` field is or is not an array. -/
inductive NetOutcome000 where
  | exn
  | ok (results : Option (List Hit000))
deriving DecidableEq

/-- `webSearchWithTavily` (part_000 lines 13-38): missing key or any
thrown error yields an empty list; a body without a `results` array
yields an empty list. -/
def webSearch000 (hasKey : Bool) (net : NetOutcome000) : List Source000 :=
  if !hasKey then []
  else
    match net with
    | .exn => []
    | .ok r => hits000Aux 0 (r.getD [])

/-- First character of the `/^[-•\d.]/` class (part_000 lines 44-45). -/
def isBulletLead (c : Char) : Bool :=
  c == '-' || c == '•' || isDigitC c || c == '.'

/-- `line.replace(/^[-•\d.]\s*/, "")`. -/
def stripBulletLead (l : List Char) : List Char :=
  match l with
  | [] => []
  | c :: t => if isBulletLead c then t.dropWhile isSpaceC else c :: t

/-- Split a character list on a separator character (JS `split`). -/
def splitOnCharAux (c : Char) : List Char → List (List Char)
  | [] => [[]]
  | x :: t =>
    match splitOnCharAux c t with
    | [] => [[]]
    | g :: gs => if x == c then [] :: g :: gs else (x :: g) :: gs

/-- `toBullets` (part_000 lines 40-48).  Note that the line filter
`/^[-•\d.]/.test(line) || line.length > 0` accepts every nonempty line. -/
def toBullets (text : String) : List String :=
  let lines := (splitOnCharAux '\n' text.data).map fun l => trimStr ⟨l⟩
  let kept := lines.filter fun l =>
    (match l.data with
     | c :: _ => isBulletLead c
     | [] => false) || l.length > 0
  let stripped := kept.map fun l => (⟨stripBulletLead l.data⟩ : String)
  (stripped.filter fun l => l.length > 0).take 12

/-- The JSON body and status returned by `part_000`'s handler. -/
structure Resp000 where
  status : Nat
  ok : Bool
  question : String
  bullets : List String
  sources : List Source000
  error : Option String
deriving DecidableEq

/-- Credential presence for `part_000`. -/
structure Env000 where
  tavilyKey : Bool
  geminiKey : Bool
deriving DecidableEq

/-- The `POST` handler of `part_000` (lines 50-99).  Validation only
rejects a missing or empty (after trim) question; a missing Gemini key is
surfaced as an HTTP 500 error; a generation exception reaches the catch
block, which returns 500 with the thrown message. -/
def postHandler000 (questionIn : Option String) (env : Env000)
    (net : NetOutcome000) (gen : GenOutcome) : Resp000 × Calls :=
  match questionIn with
  | none => (⟨400, false, "", [], [], some "Missing question"⟩,
             ⟨false, false, false⟩)
  | some question =>
    if (trimStr question).length == 0 then
      (⟨400, false, "", [], [], some "Missing question"⟩,
       ⟨false, false, false⟩)
    else
      let sources := webSearch000 env.tavilyKey net
      if !env.geminiKey then
        (⟨500, false, question, [], sources, some "Missing GEMINI_API_KEY"⟩,
         ⟨env.tavilyKey, false, false⟩)
      else
        match gen with
        | .throws msg =>
          (⟨500, false, "", [], [], some msg⟩, ⟨env.tavilyKey, true, false⟩)
        | .returns text =>
          (⟨200, true, question, toBullets text, sources, none⟩,
           ⟨env.tavilyKey, true, false⟩)

/-! ### Citation-index observation (for stating the round-trip claim) -/

/-- Digits to a number. -/
def parseNat (ds : List Char) : Nat :=
  ds.foldl (fun a c => a * 10 + (c.toNat - 48)) 0

/-- Parse the numbers of the comma groups of a citation cluster. -/
def numGroups (fuel : Nat) (l : List Char) : List Nat × List Char :=
  match fuel with
  | 0 => ([], l)
  | fuel + 1 =>
    let ws1 := l.takeWhile isSpaceC
    match l.drop ws1.length with
    | ',' :: r2 =>
      let ws2 := r2.takeWhile isSpaceC
      match parseDigits (r2.drop ws2.length) with
      | some (ds, r4) =>
        let (ns, rest) := numGroups fuel r4
        (parseNat ds :: ns, rest)
      | none => ([], l)
    | _ => ([], l)

/-- Parse a citation cluster at the head of the list, returning its
numbers and the rest of the input. -/
def clusterNumsAt (l : List Char) : Option (List Nat × List Char) :=
  match l with
  | '[' :: r1 =>
    match parseDigits r1 with
    | some (ds, r2) =>
      let (ns, r3) := numGroups r2.length r2
      match r3 with
      | ']' :: r4 => some (parseNat ds :: ns, r4)
      | _ => none
    | none => none
  | _ => none

/-- Scan a character list for citation clusters. -/
def citationScan (fuel : Nat) (l : List Char) : List Nat :=
  match fuel with
  | 0 => []
  | fuel + 1 =>
    match l with
    | [] => []
    | c :: rest =>
      match clusterNumsAt (c :: rest) with
      | some (ns, after) => ns ++ citationScan fuel after
      | none => citationScan fuel rest

/-- All citation indices appearing in a rendered answer, in order. -/
def citationIndices (s : String) : List Nat := citationScan s.length s.data

/-! ### Spec-side predicates -/

/-- The claim's reading of keyword matching: some keyword of the list
occurs (case-insensitively) in the question. -/
def MatchesAny (keys : List String) (q : String) : Prop :=
  ∃ k ∈ keys, includesStr (toLowerStr q) k = true

end Devi

namespace Devi

/-! ## Helper lemmas -/

theorem someIncludes_iff (s : String) (keys : List String) :
    someIncludes s keys = true ↔ ∃ k ∈ keys, includesStr s k = true := by
  simp [someIncludes, List.any_eq_true]

theorem hitsToSourcesAux_nil_iff (i : Nat) (hits : List TavilyItem) :
    hitsToSourcesAux i hits = [] ↔ hits = [] := by
  cases hits <;> simp [hitsToSourcesAux]

/-! ## Claims -/

/-- Claim C4 (confirmed).  The first intent classifier implements exactly
the stated policy over case-insensitive substring matching: imaging
keywords matching with no emergency keyword gives `radiology`; any
emergency keyword match gives `emergency` (overriding co-occurring
imaging keywords); otherwise `ortho`.  It is total and deterministic by
construction. -/
theorem detectMode_policy (q : String) :
    (MatchesAny radioKeys1 q ∧ ¬ MatchesAny edKeys1 q →
        detectMode q = "radiology")
    ∧ (MatchesAny edKeys1 q → detectMode q = "emergency")
    ∧ (¬ MatchesAny radioKeys1 q ∧ ¬ MatchesAny edKeys1 q →
        detectMode q = "ortho") := by
  have hr := someIncludes_iff (toLowerStr q) radioKeys1
  have he := someIncludes_iff (toLowerStr q) edKeys1
  refine ⟨?_, ?_, ?_⟩
  · rintro ⟨h1, h2⟩
    have hb1 : someIncludes (toLowerStr q) radioKeys1 = true := hr.mpr h1
    have hb2 : someIncludes (toLowerStr q) edKeys1 = false := by
      cases hx : someIncludes (toLowerStr q) edKeys1
      · rfl
      · exact absurd (he.mp hx) h2
    simp [detectMode, detectModeWith, hb1, hb2]
  · intro h1
    have hb1 : someIncludes (toLowerStr q) edKeys1 = true := he.mpr h1
    simp [detectMode, detectModeWith, hb1]
  · rintro ⟨h1, h2⟩
    have hb1 : someIncludes (toLowerStr q) radioKeys1 = false := by
      cases hx : someIncludes (toLowerStr q) radioKeys1
      · rfl
      · exact absurd (hr.mp hx) h1
    have hb2 : someIncludes (toLowerStr q) edKeys1 = false := by
      cases hx : someIncludes (toLowerStr q) edKeys1
      · rfl
      · exact absurd (he.mp hx) h2
    simp [detectMode, detectModeWith, hb1, hb2]

/-- Claim C4, witness: the emergency branch of the policy applied at a
concrete question containing the emergency keyword `abcde`. -/
theorem detectMode_policy_witness :
    MatchesAny edKeys1 "ABCDE approach to the unstable pelvis"
    ∧ detectMode "ABCDE approach to the unstable pelvis" = "emergency" :=
  ⟨⟨"abcde", by decide, by decide⟩,
   (detectMode_policy "ABCDE approach to the unstable pelvis").2.1
     ⟨"abcde", by decide, by decide⟩⟩

/-- Claim C5, counterexample: the second variant's classifier — the one
the claim cites — sends the Gartland question to `radiology`, not
`ortho`, because its bare keyword `ct` occurs inside the word
`fracture`. -/
theorem detectMode2_gartland_not_ortho :
    detectMode2 "Gartland type II supracondylar humerus fracture — what should I know?"
      = "radiology"
    ∧ detectMode2 "Gartland type II supracondylar humerus fracture — what should I know?"
      ≠ "ortho" := by
  constructor
  · decide
  · decide

/-- Claim C5 (corrected).  Under the first variant's classifier (whose
imaging keyword is `"ct "` with a trailing space) the Gartland question
does resolve to `ortho`, and the ortho section titles are exactly the five
listed ones in order. -/
theorem detectMode_gartland_ortho :
    detectMode "Gartland type II supracondylar humerus fracture — what should I know?"
      = "ortho"
    ∧ sectionTitlesFor
        (detectMode "Gartland type II supracondylar humerus fracture — what should I know?")
      = ["Classification", "Risk Factors", "Associated Injuries",
         "Initial Management", "Definitive/Follow-up"] := by
  constructor
  · decide
  · decide

/-- Claim C6, counterexample: deduplication is not idempotent on a
cluster repeated three times — the first pass leaves `"[1]. [1]"`, which a
second pass collapses further. -/
theorem dedupeCitations_not_idempotent :
    dedupeCitations (dedupeCitations "[1]. [1]. [1]")
      ≠ dedupeCitations "[1]. [1]. [1]" := by decide

/-- Claim C6 (corrected).  One pass collapses a doubled cluster to a
single cluster, and single clusters are fixed points, so re-deduplicating
those outputs is a no-op; but on a cluster repeated three times the first
pass only collapses the first pair, so a second pass still changes the
string (it reaches the fixed point one pass later). -/
theorem dedupeCitations_behaviour :
    dedupeCitations "[1]. [1]. [1]" = "[1]. [1]"
    ∧ dedupeCitations "[1]. [1]" = "[1]"
    ∧ dedupeCitations "[1]" = "[1]"
    ∧ dedupeCitations "[2, 4]. [2, 4]" = "[2, 4]"
    ∧ dedupeCitations (dedupeCitations "[2, 4]. [2, 4]")
        = dedupeCitations "[2, 4]. [2, 4]"
    ∧ dedupeCitations (dedupeCitations (dedupeCitations "[1]. [1]. [1]"))
        = dedupeCitations (dedupeCitations "[1]. [1]. [1]") := by
  refine ⟨by decide, by decide, by decide, by decide, by decide, by decide⟩

/-- Claim C7 (confirmed).  For a valid question, when the search client
yields no hits the first handler returns the HTTP 200 no-sources response:
the explanatory message as the answer, an empty source list, and it makes
no generation call (and no webhook call). -/
theorem postHandler1_no_sources (q : String) (um : Option String)
    (env : Env) (net : NetOutcome) (gen : GenOutcome)
    (hq : ¬ (trimStr q).length < 3)
    (hnet : webSearch env.tavilyKey net = []) :
    postHandler1 (some q) um env net gen =
      (.ok noSourcesHtml1 [] (resolveMode1 um q),
       ⟨env.tavilyKey, false, false⟩) := by
  unfold postHandler1
  simp [hq, hnet, hitsToSources, hitsToSourcesAux]

/-- Claim C7, witness: a concrete valid question with the search
credential absent (so the search client returns no hits). -/
theorem postHandler1_no_sources_witness :
    (¬ (trimStr "scaphoid fracture").length < 3)
    ∧ webSearch false NetOutcome.exn = []
    ∧ postHandler1 (some "scaphoid fracture") none ⟨false, false, false⟩
        NetOutcome.exn (.returns "x") =
      (.ok noSourcesHtml1 [] (resolveMode1 none "scaphoid fracture"),
       ⟨false, false, false⟩) :=
  ⟨by decide, by decide,
   postHandler1_no_sources "scaphoid fracture" none ⟨false, false, false⟩
     NetOutcome.exn (.returns "x") (by decide) (by decide)⟩

/-! ### More helper lemmas (fallback structure, generation step) -/

theorem fallbackHtml1_eq_render (m : String) :
    fallbackHtml1 m = renderSecs (fallbackSections1 m) := by
  unfold fallbackHtml1 fallbackSections1
  by_cases h1 : (m == "radiology") = true
  · simp [h1, renderSecs, String.append_empty, String.append_assoc]
  · by_cases h2 : (m == "emergency") = true
    · simp [h1, h2, renderSecs, String.append_empty, String.append_assoc]
    · simp [h1, h2, renderSecs, String.append_empty, String.append_assoc]

theorem fallbackSections1_titles (m : String) :
    (fallbackSections1 m).map Prod.fst = sectionTitlesFor m := by
  unfold fallbackSections1 sectionTitlesFor
  by_cases h1 : (m == "radiology") = true
  · simp [h1]
  · by_cases h2 : (m == "emergency") = true
    · simp [h1, h2]
    · simp [h1, h2]

theorem fallbackSections1_bullets_nonempty (m : String) :
    ∀ p ∈ fallbackSections1 m, p.2 ≠ [] := by
  unfold fallbackSections1
  by_cases h1 : (m == "radiology") = true
  · simp [h1]
  · by_cases h2 : (m == "emergency") = true
    · simp [h1, h2]
    · simp [h1, h2]

theorem genHtml1_unusable (env : Env) (gen : GenOutcome)
    (hgen : env.geminiKey = false ∨ (∃ msg, gen = .throws msg)
      ∨ (∃ t, gen = .returns t ∧ looksHtml1 (processGen1 t) = false)) :
    genHtml1 env.geminiKey gen = "" := by
  rcases hgen with h | ⟨msg, rfl⟩ | ⟨t, rfl, hlook⟩
  · simp [genHtml1, h]
  · cases env.geminiKey <;> simp [genHtml1]
  · cases env.geminiKey <;> simp [genHtml1, hlook]

theorem hitsToSourcesAux_maps (i : Nat) (hits : List TavilyItem) :
    (hitsToSourcesAux i hits).map SourceRec.url = hits.map TavilyItem.url
    ∧ (hitsToSourcesAux i hits).map SourceRec.id
        = List.range' (i + 1) hits.length := by
  induction hits generalizing i with
  | nil => simp [hitsToSourcesAux]
  | cons h t ih =>
    have := ih (i + 1)
    simp [hitsToSourcesAux, mkSource1, List.range', this.1, this.2]

set_option maxRecDepth 16000 in
/-- Claim C1 (code bug).  With a single search hit and the generation
step failing, the first handler's ortho fallback emits citation index 6 in
the rendered answer while the returned source list only contains id 1: a
rendered citation index does not correspond to any id of the `sources`
list of the same response, because the fallback's `safe` helper does not
clamp to the number of sources (the second variant's `cite` helper does). -/
theorem fallback_cites_beyond_sources :
    6 ∈ citationIndices
        (((postHandler1 (some "fracture care") (some "ortho") ⟨true, false, false⟩
            (.ok (some [⟨"https://example.org/a", some "A", some "snippet"⟩]))
            (.throws "g")).1).answerOf.getD "")
    ∧ ((postHandler1 (some "fracture care") (some "ortho") ⟨true, false, false⟩
          (.ok (some [⟨"https://example.org/a", some "A", some "snippet"⟩]))
          (.throws "g")).1).sourcesOf.map PublicSource.id = [1]
    ∧ (6 : Nat) ∉ ([1] : List Nat) :=
  ⟨by decide, by decide, by decide⟩

/-- Claim C2 (corrected).  The first route.ts handler rejects a missing
question, or one shorter than 3 characters after trimming, with HTTP 400
and the message `Ask a valid question.`, before any outbound call is
issued. -/
theorem postHandler1_rejects_short_question (qIn : Option String)
    (um : Option String) (env : Env) (net : NetOutcome) (gen : GenOutcome)
    (h : qIn = none ∨ ∃ q, qIn = some q ∧ (trimStr q).length < 3) :
    postHandler1 qIn um env net gen =
      (.err 400 "Ask a valid question.", ⟨false, false, false⟩) := by
  rcases h with rfl | ⟨q, rfl, hq⟩
  · rfl
  · simp [postHandler1, hq]

/-- Claim C2, witness: the two-character question `hi` is rejected by the
first handler with no outbound calls. -/
theorem postHandler1_rejects_short_question_witness :
    ((some "hi" : Option String) = none
      ∨ ∃ q, (some "hi" : Option String) = some q ∧ (trimStr q).length < 3)
    ∧ postHandler1 (some "hi") none ⟨true, true, true⟩ (.ok none) (.returns "t")
        = (.err 400 "Ask a valid question.", ⟨false, false, false⟩) :=
  ⟨Or.inr ⟨"hi", rfl, by decide⟩,
   postHandler1_rejects_short_question (some "hi") none ⟨true, true, true⟩
     (.ok none) (.returns "t") (Or.inr ⟨"hi", rfl, by decide⟩)⟩

/-- Claim C2, counterexample: the `part_000` handler only rejects an
empty question, so the two-character question `hi` (shorter than 3
trimmed characters) is not answered with a client error and the outbound
search request is still performed. -/
theorem part000_accepts_short_question :
    (trimStr "hi").length < 3
    ∧ (postHandler000 (some "hi") ⟨true, false⟩
        (.ok (some [⟨some "https://example.org", some "T", none⟩]))
        (.returns "x")).2.searchCall = true
    ∧ (postHandler000 (some "hi") ⟨true, false⟩
        (.ok (some [⟨some "https://example.org", some "T", none⟩]))
        (.returns "x")).1.status ≠ 400 :=
  ⟨by decide, by decide, by decide⟩

/-- Claim C3 (corrected).  In the first route.ts handler, for a valid
question with at least one search hit, whenever the generation credential
is absent, the generation call throws, or its output fails the HTML
shape test, the handler still returns a success whose answer is the
mode's fallback template; that template renders exactly the mode's fixed
section titles in order, each section holding a nonempty bullet list. -/
theorem postHandler1_fallback_on_gen_failure (q : String) (um : Option String)
    (env : Env) (net : NetOutcome) (gen : GenOutcome)
    (hq : ¬ (trimStr q).length < 3)
    (hhits : webSearch env.tavilyKey net ≠ [])
    (hgen : env.geminiKey = false ∨ (∃ msg, gen = .throws msg)
      ∨ (∃ t, gen = .returns t ∧ looksHtml1 (processGen1 t) = false)) :
    (postHandler1 (some q) um env net gen).1 =
      .ok (fallbackHtml1 (resolveMode1 um q))
          ((hitsToSources (webSearch env.tavilyKey net)).map toPublic)
          (resolveMode1 um q)
    ∧ fallbackHtml1 (resolveMode1 um q)
        = renderSecs (fallbackSections1 (resolveMode1 um q))
    ∧ (fallbackSections1 (resolveMode1 um q)).map Prod.fst
        = sectionTitlesFor (resolveMode1 um q)
    ∧ ∀ p ∈ fallbackSections1 (resolveMode1 um q), p.2 ≠ [] := by
  have hg := genHtml1_unusable env gen hgen
  have hsrc : hitsToSources (webSearch env.tavilyKey net) ≠ [] := fun h =>
    hhits ((hitsToSourcesAux_nil_iff 0 _).mp h)
  refine ⟨?_, fallbackHtml1_eq_render _, fallbackSections1_titles _,
    fallbackSections1_bullets_nonempty _⟩
  unfold postHandler1
  rcases hcase : hitsToSources (webSearch env.tavilyKey net) with _ | ⟨s0, rest⟩
  · exact absurd hcase hsrc
  · simp [hq, hcase, List.isEmpty, hg]

/-- Claim C3, witness: one search hit, generation throwing, forced
emergency mode — the answer is the emergency fallback template. -/
theorem postHandler1_fallback_on_gen_failure_witness :
    (¬ (trimStr "fracture care").length < 3)
    ∧ webSearch true
        (NetOutcome.ok (some [⟨"https://example.org/a", some "A", some "snippet"⟩])) ≠ []
    ∧ ((postHandler1 (some "fracture care") (some "emergency") ⟨true, false, false⟩
          (NetOutcome.ok (some [⟨"https://example.org/a", some "A", some "snippet"⟩]))
          (GenOutcome.throws "boom")).1).answerOf = some (fallbackHtml1 "emergency") :=
  ⟨by decide, by decide, by
    have h := (postHandler1_fallback_on_gen_failure "fracture care"
      (some "emergency") ⟨true, false, false⟩
      (NetOutcome.ok (some [⟨"https://example.org/a", some "A", some "snippet"⟩]))
      (GenOutcome.throws "boom") (by decide) (by decide)
      (Or.inr (Or.inl ⟨"boom", rfl⟩))).1
    rw [h]
    rfl⟩

/-- Claim C3, counterexample: the `part_000` handler surfaces generation
unavailability to the caller as an HTTP 500 error (`Missing
GEMINI_API_KEY`) instead of falling back to a successful templated
answer. -/
theorem part000_surfaces_missing_gen_key :
    (postHandler000 (some "knee pain") ⟨false, false⟩ (.ok none) (.returns "x")).1
      = ⟨500, false, "knee pain", [], [], some "Missing GEMINI_API_KEY"⟩ := by
  decide

/-- Claim C8 (corrected).  The first `webSearch` never raises: missing
credential, thrown fetch, non-success status, and a body without a
`results` list all yield an empty list, and an empty search result makes
the handler return the no-sources success response.  The third variant's
`webSearch` returns empty on a missing credential or non-success status,
but it has no `try`/`catch` for the thrown fetch (see its
counterexample). -/
theorem webSearch_failsoft (net net2 : NetOutcome) (l : List TavilyItem)
    (q : String) (um : Option String) (env : Env) (gen : GenOutcome) :
    webSearch false net = []
    ∧ webSearch true NetOutcome.exn = []
    ∧ webSearch true NetOutcome.httpErr = []
    ∧ webSearch true (NetOutcome.ok none) = []
    ∧ webSearch true (NetOutcome.ok (some l)) = l
    ∧ webSearch3 false net2 = Except.ok []
    ∧ webSearch3 true NetOutcome.httpErr = Except.ok []
    ∧ (¬ (trimStr q).length < 3 → webSearch env.tavilyKey net = [] →
        postHandler1 (some q) um env net gen =
          (.ok noSourcesHtml1 [] (resolveMode1 um q),
           ⟨env.tavilyKey, false, false⟩)) := by
  refine ⟨rfl, rfl, rfl, rfl, rfl, rfl, rfl, ?_⟩
  intro hq hnet
  simp [postHandler1, hq, hnet, hitsToSources, hitsToSourcesAux]

/-- Claim C8, witness: with the search credential absent, the empty
search result leads to the no-sources success response. -/
theorem webSearch_failsoft_witness :
    (¬ (trimStr "ankle sprain").length < 3)
    ∧ webSearch false (NetOutcome.ok none) = []
    ∧ postHandler1 (some "ankle sprain") none ⟨false, false, false⟩
        (NetOutcome.ok none) (GenOutcome.returns "x")
        = (.ok noSourcesHtml1 [] (resolveMode1 none "ankle sprain"),
           ⟨false, false, false⟩) :=
  ⟨by decide, by decide,
   (webSearch_failsoft (NetOutcome.ok none) (NetOutcome.ok none) []
     "ankle sprain" none ⟨false, false, false⟩
     (GenOutcome.returns "x")).2.2.2.2.2.2.2 (by decide) rfl⟩

/-- Claim C8, counterexample: the third variant's `webSearch` propagates
a network exception to its caller instead of returning an empty list. -/
theorem webSearch3_exception_propagates :
    webSearch3 true NetOutcome.exn = Except.error () := rfl

/-- Claim C9 (corrected).  The hits-to-sources mapping performs no
deduplication at all: it is one-to-one and order-preserving, with the
i-th source carrying the i-th hit's URL verbatim and id `i + 1`. -/
theorem hitsToSources_one_to_one (hits : List TavilyItem) :
    (hitsToSources hits).map SourceRec.url = hits.map TavilyItem.url
    ∧ (hitsToSources hits).map SourceRec.id = List.range' 1 hits.length :=
  hitsToSourcesAux_maps 0 hits

/-- Claim C9, counterexample: two hits whose URLs are equal after
query-string/fragment stripping both survive into the source list, so the
list does contain two entries with equal stripped URLs. -/
theorem hitsToSources_keeps_duplicate_urls :
    (hitsToSources [⟨"https://a.org/p?x=1", some "T", none⟩,
                    ⟨"https://a.org/p#frag", some "U", none⟩]).length = 2
    ∧ ((hitsToSources [⟨"https://a.org/p?x=1", some "T", none⟩,
                       ⟨"https://a.org/p#frag", some "U", none⟩]).map
        fun s => stripQueryFragment s.url)
      = ["https://a.org/p", "https://a.org/p"] :=
  ⟨by decide, by decide⟩

/-- Claim C10 (corrected).  A NON-EMPTY request mode other than `auto` is
adopted by the first handler without membership validation and echoed
back unchanged, and any such mode outside the closed set selects the
ortho section titles and the ortho fallback content. -/
theorem forcedMode_adopted_unvalidated (m q : String) (env : Env)
    (net : NetOutcome) (gen : GenOutcome) (hm : m ≠ "") (hauto : m ≠ "auto")
    (hq : ¬ (trimStr q).length < 3) :
    ((postHandler1 (some q) (some m) env net gen).1).modeOf = some m
    ∧ (m ≠ "radiology" → m ≠ "emergency" →
        sectionTitlesFor m = sectionTitlesFor "ortho"
        ∧ fallbackHtml1 m = fallbackHtml1 "ortho") := by
  have hmode : resolveMode1 (some m) q = m := by
    simp [resolveMode1, hm, hauto]
  constructor
  · unfold postHandler1
    rcases hcase : hitsToSources (webSearch env.tavilyKey net) with _ | ⟨s0, rest⟩
    · simp [hq, hcase, List.isEmpty, HandlerResult.modeOf, hmode]
    · simp [hq, hcase, List.isEmpty, HandlerResult.modeOf, hmode]
  · intro h1 h2
    have e1 : (("ortho" : String) == "radiology") = false := by decide
    have e2 : (("ortho" : String) == "emergency") = false := by decide
    constructor
    · simp [sectionTitlesFor, h1, h2, e1, e2]
    · simp [fallbackHtml1, h1, h2, e1, e2]

/-- Claim C10, witness: the out-of-set mode `banana` is echoed back and
selects the ortho titles and ortho fallback. -/
theorem forcedMode_adopted_unvalidated_witness :
    (("banana" : String) ≠ "") ∧ (("banana" : String) ≠ "auto")
    ∧ (¬ (trimStr "wrist pain").length < 3)
    ∧ ((postHandler1 (some "wrist pain") (some "banana") ⟨false, false, false⟩
          (.ok none) (.returns "x")).1).modeOf = some "banana"
    ∧ sectionTitlesFor "banana" = sectionTitlesFor "ortho"
    ∧ fallbackHtml1 "banana" = fallbackHtml1 "ortho" := by
  have h := forcedMode_adopted_unvalidated "banana" "wrist pain"
    ⟨false, false, false⟩ (.ok none) (.returns "x")
    (by decide) (by decide) (by decide)
  exact ⟨by decide, by decide, by decide, h.1,
    (h.2 (by decide) (by decide)).1, (h.2 (by decide) (by decide)).2⟩

/-- Claim C10, counterexample: the empty string is a mode value other
than `auto`, yet it is falsy in the source's `userMode && userMode !==
"auto"` test, so it is NOT adopted — keyword detection runs instead and
the response's mode is `ortho`, not the sent empty string. -/
theorem emptyMode_not_adopted :
    ((postHandler1 (some "hip dislocation") (some "") ⟨false, false, false⟩
        (.ok none) (.returns "x")).1).modeOf = some "ortho"
    ∧ (("ortho" : String) ≠ "") :=
  ⟨by decide, by decide⟩

end Devi
